import Mathlib

/-!
Verification of the NRetrocade XP/Leveling engine and game-session manager.

The definitions below are a shallow embedding of the Convex backend code:
* `convex/utils.ts` — the pure leveling engine (`getExpForLevel`,
  `getTotalExpForLevel`, `calculateLevelFromExp`, `calculateExpFromPlaytime`);
* `convex/gameSessions.ts` — the session manager mutations (`startSession`,
  `endSession`), modelled as explicit state transformers on a per-user
  database snapshot.

JavaScript numbers are modelled as exact rationals (`ℚ`) and integers (`ℤ`);
`Math.floor` is `Int.floor`. A Convex mutation sees a frozen `Date.now()`
value for its whole execution, so every operation takes a single `now`
parameter, and a thrown error aborts the mutation atomically (no write
persists), which is modelled with `Except`.
-/

namespace NRetrocade

/-! ## Leveling engine (convex/utils.ts) -/

/-- `getExpForLevel` from `convex/utils.ts`:
XP required to reach a specific level, `floor(level * 100 * 1.5^(level-1))`,
and `0` for `level <= 1`. -/
def getExpForLevel (level : ℕ) : ℤ :=
  if level ≤ 1 then 0
  else ⌊(level : ℚ) * 100 * (1.5 : ℚ) ^ (level - 1)⌋

/-- `getTotalExpForLevel` from `convex/utils.ts`: the loop
`for (i = 1; i < level; i++) total += getExpForLevel(i + 1)`,
i.e. the sum of `getExpForLevel 2 .. getExpForLevel level`. -/
def getTotalExpForLevel : ℕ → ℤ
  | 0 => 0
  | n + 1 => getTotalExpForLevel n + getExpForLevel (n + 1)

/-- Result record of `calculateLevelFromExp`. -/
structure LevelInfo where
  level : ℕ
  currentLevelExp : ℚ
  nextLevelExp : ℤ
  progress : ℚ
  deriving Repr, DecidableEq

lemma getExpForLevel_nonneg (n : ℕ) : 0 ≤ getExpForLevel n := by
  unfold getExpForLevel
  split
  · exact le_refl 0
  · apply Int.le_floor.mpr
    push_cast
    positivity

lemma le_getExpForLevel (n : ℕ) (hn : 2 ≤ n) : 300 ≤ getExpForLevel n := by
  unfold getExpForLevel
  rw [if_neg (by omega)]
  apply Int.le_floor.mpr
  have h1 : (2 : ℚ) ≤ (n : ℚ) := by exact_mod_cast hn
  have h2 : (1.5 : ℚ) ≤ (1.5 : ℚ) ^ (n - 1) := by
    apply le_self_pow₀ (by norm_num)
    omega
  have h3 : (0 : ℚ) < (1.5 : ℚ) ^ (n - 1) := by positivity
  push_cast
  nlinarith

/-- The `while` loop inside `calculateLevelFromExp` (`convex/utils.ts`):
state is `(level, expForCurrentLevel)`; each iteration increments the level,
reads `getExpForLevel` for it, and either breaks (decrementing back, modelled
by returning the un-incremented level) or accumulates. -/
def levelLoop (totalExp : ℚ) (level : ℕ) (expForCurrentLevel : ℤ) : ℕ × ℤ :=
  if _h1 : (expForCurrentLevel : ℚ) ≤ totalExp then
    if _h2 : ((expForCurrentLevel + getExpForLevel (level + 1) : ℤ) : ℚ) > totalExp then
      (level, expForCurrentLevel)
    else
      levelLoop totalExp (level + 1) (expForCurrentLevel + getExpForLevel (level + 1))
  else
    (level, expForCurrentLevel)
termination_by (⌊totalExp⌋ - expForCurrentLevel).toNat + (1 - level)
decreasing_by
  have h2' : ((expForCurrentLevel + getExpForLevel (level + 1) : ℤ) : ℚ) ≤ totalExp :=
    not_lt.mp _h2
  have hle : expForCurrentLevel + getExpForLevel (level + 1) ≤ ⌊totalExp⌋ :=
    Int.le_floor.mpr h2'
  rcases Nat.eq_zero_or_pos level with h0 | h1
  · subst h0
    have hc1 : getExpForLevel 1 = 0 := by simp [getExpForLevel]
    rw [hc1] at hle ⊢
    omega
  · have hc : 300 ≤ getExpForLevel (level + 1) := le_getExpForLevel (level + 1) (by omega)
    omega

/-- `calculateLevelFromExp` from `convex/utils.ts`: derives
`{level, currentLevelExp, nextLevelExp, progress}` from a cumulative XP
total. -/
def calculateLevelFromExp (totalExp : ℚ) : LevelInfo :=
  let r := levelLoop totalExp 1 0
  let level := r.1
  let expForCurrentLevel := r.2
  let nextLevelExp := getExpForLevel (level + 1)
  let currentLevelExp := totalExp - (expForCurrentLevel : ℚ)
  let progress :=
    if (nextLevelExp : ℚ) > 0 then currentLevelExp / (nextLevelExp : ℚ) * 100 else 0
  { level := level
    currentLevelExp := currentLevelExp
    nextLevelExp := nextLevelExp
    progress := progress }

/-- `calculateExpFromPlaytime` from `convex/utils.ts`: `floor(minutes * 10)`. -/
def calculateExpFromPlaytime (minutes : ℚ) : ℤ :=
  ⌊minutes * 10⌋

/-- `calculateGuildLevel` from `convex/utils.ts`. -/
def calculateGuildLevel (totalExp : ℚ) : ℕ :=
  (calculateLevelFromExp totalExp).level

lemma calculateExpFromPlaytime_intCast (d : ℤ) :
    calculateExpFromPlaytime (d : ℚ) = 10 * d := by
  unfold calculateExpFromPlaytime
  rw [show ((d : ℚ) * 10) = ((10 * d : ℤ) : ℚ) by push_cast; ring]
  exact Int.floor_intCast _

/-! ### Cumulative-cost lemmas -/

lemma getTotalExpForLevel_succ (n : ℕ) :
    getTotalExpForLevel (n + 1) = getTotalExpForLevel n + getExpForLevel (n + 1) := rfl

lemma getTotalExpForLevel_nonneg (n : ℕ) : 0 ≤ getTotalExpForLevel n := by
  induction n with
  | zero => simp [getTotalExpForLevel]
  | succ k ih =>
    rw [getTotalExpForLevel_succ]
    have := getExpForLevel_nonneg (k + 1)
    omega

lemma getTotalExpForLevel_mono {m n : ℕ} (h : m ≤ n) :
    getTotalExpForLevel m ≤ getTotalExpForLevel n := by
  induction n with
  | zero =>
    have hm : m = 0 := Nat.le_zero.mp h
    simp [hm]
  | succ k ih =>
    rcases Nat.lt_or_ge m (k + 1) with hlt | hge
    · have h1 := ih (by omega)
      have h2 := getExpForLevel_nonneg (k + 1)
      rw [getTotalExpForLevel_succ]
      omega
    · have hm : m = k + 1 := by omega
      simp [hm]

lemma getTotalExpForLevel_succ_lt {n : ℕ} (hn : 1 ≤ n) :
    getTotalExpForLevel n < getTotalExpForLevel (n + 1) := by
  rw [getTotalExpForLevel_succ]
  have h := le_getExpForLevel (n + 1) (by omega)
  omega

lemma getTotalExpForLevel_one : getTotalExpForLevel 1 = 0 := by
  simp [getTotalExpForLevel, getExpForLevel]

/-! ### Characterisation of the level-derivation loop -/

lemma levelLoop_invariant (t : ℚ) :
    ∀ n level : ℕ, 1 ≤ level →
    ((getTotalExpForLevel level : ℤ) : ℚ) ≤ t →
    (⌊t⌋ - getTotalExpForLevel level).toNat ≤ n →
    level ≤ (levelLoop t level (getTotalExpForLevel level)).1 ∧
    (levelLoop t level (getTotalExpForLevel level)).2 =
      getTotalExpForLevel (levelLoop t level (getTotalExpForLevel level)).1 ∧
    ((getTotalExpForLevel (levelLoop t level (getTotalExpForLevel level)).1 : ℤ) : ℚ) ≤ t ∧
    t < ((getTotalExpForLevel ((levelLoop t level (getTotalExpForLevel level)).1 + 1) : ℤ) : ℚ) := by
  intro n
  induction n with
  | zero =>
    intro level hlev hle hmeas
    have hfl : ⌊t⌋ ≤ getTotalExpForLevel level := by omega
    have hcost : 300 ≤ getExpForLevel (level + 1) := le_getExpForLevel _ (by omega)
    have hinner :
        ((getTotalExpForLevel level + getExpForLevel (level + 1) : ℤ) : ℚ) > t := by
      have h1 : t < (⌊t⌋ : ℚ) + 1 := Int.lt_floor_add_one t
      have h2 : ((⌊t⌋ : ℚ) + 1) ≤
          ((getTotalExpForLevel level + getExpForLevel (level + 1) : ℤ) : ℚ) := by
        push_cast
        have : (⌊t⌋ : ℚ) ≤ (getTotalExpForLevel level : ℚ) := by exact_mod_cast hfl
        have hc : (300 : ℚ) ≤ (getExpForLevel (level + 1) : ℚ) := by exact_mod_cast hcost
        linarith
      linarith
    rw [levelLoop, dif_pos hle, dif_pos hinner]
    refine ⟨le_refl _, rfl, hle, ?_⟩
    rw [getTotalExpForLevel_succ]
    exact hinner
  | succ k ih =>
    intro level hlev hle hmeas
    rw [levelLoop, dif_pos hle]
    by_cases hinner :
        ((getTotalExpForLevel level + getExpForLevel (level + 1) : ℤ) : ℚ) > t
    · rw [dif_pos hinner]
      refine ⟨le_refl _, rfl, hle, ?_⟩
      rw [getTotalExpForLevel_succ]
      exact hinner
    · rw [dif_neg hinner]
      have hnext : ((getTotalExpForLevel (level + 1) : ℤ) : ℚ) ≤ t := by
        rw [getTotalExpForLevel_succ]
        exact not_lt.mp hinner
      have hc : 300 ≤ getExpForLevel (level + 1) := le_getExpForLevel _ (by omega)
      have hflo : getTotalExpForLevel (level + 1) ≤ ⌊t⌋ := Int.le_floor.mpr hnext
      have hmeas' : (⌊t⌋ - getTotalExpForLevel (level + 1)).toNat ≤ k := by
        rw [getTotalExpForLevel_succ] at hflo ⊢
        omega
      rw [← getTotalExpForLevel_succ]
      obtain ⟨h1, h2, h3, h4⟩ := ih (level + 1) (by omega) hnext hmeas'
      exact ⟨by omega, h2, h3, h4⟩

lemma calculateLevelFromExp_level (t : ℚ) :
    (calculateLevelFromExp t).level = (levelLoop t 1 0).1 := rfl

lemma calculateLevelFromExp_spec (t : ℚ) (ht : 0 ≤ t) :
    1 ≤ (calculateLevelFromExp t).level ∧
    ((getTotalExpForLevel (calculateLevelFromExp t).level : ℤ) : ℚ) ≤ t ∧
    t < ((getTotalExpForLevel ((calculateLevelFromExp t).level + 1) : ℤ) : ℚ) ∧
    (levelLoop t 1 0).2 = getTotalExpForLevel (calculateLevelFromExp t).level := by
  have h0 : (getTotalExpForLevel 1 : ℤ) = 0 := getTotalExpForLevel_one
  have hin := levelLoop_invariant t (⌊t⌋ - getTotalExpForLevel 1).toNat 1 (le_refl 1)
    (by rw [h0]; exact_mod_cast ht) (le_refl _)
  rw [h0] at hin
  obtain ⟨h1, h2, h3, h4⟩ := hin
  exact ⟨by rw [calculateLevelFromExp_level]; exact h1,
    by rw [calculateLevelFromExp_level]; exact h3,
    by rw [calculateLevelFromExp_level]; exact h4,
    by rw [calculateLevelFromExp_level]; exact h2⟩

/-- The level returned for `t` is the unique `L ≥ 1` with
`getTotalExpForLevel L ≤ t < getTotalExpForLevel (L+1)`. -/
lemma level_eq_of_bounds (t : ℚ) (L : ℕ)
    (h1 : ((getTotalExpForLevel L : ℤ) : ℚ) ≤ t)
    (h2 : t < ((getTotalExpForLevel (L + 1) : ℤ) : ℚ)) :
    (calculateLevelFromExp t).level = L := by
  have ht : 0 ≤ t := by
    have := getTotalExpForLevel_nonneg L
    have h' : (0 : ℚ) ≤ ((getTotalExpForLevel L : ℤ) : ℚ) := by exact_mod_cast this
    linarith
  obtain ⟨ha, hb, hc, -⟩ := calculateLevelFromExp_spec t ht
  by_contra hne
  rcases Nat.lt_or_ge (calculateLevelFromExp t).level L with hlt | hge
  · have hm := getTotalExpForLevel_mono (show (calculateLevelFromExp t).level + 1 ≤ L by omega)
    have hm' : ((getTotalExpForLevel ((calculateLevelFromExp t).level + 1) : ℤ) : ℚ) ≤
        ((getTotalExpForLevel L : ℤ) : ℚ) := by exact_mod_cast hm
    linarith
  · have hgt : L + 1 ≤ (calculateLevelFromExp t).level := by omega
    have hm := getTotalExpForLevel_mono hgt
    have hm' : ((getTotalExpForLevel (L + 1) : ℤ) : ℚ) ≤
        ((getTotalExpForLevel (calculateLevelFromExp t).level : ℤ) : ℚ) := by exact_mod_cast hm
    linarith

/-! ## Session manager (convex/gameSessions.ts)

The mutations operate on one user's slice of the database: the user's
document (absent when the supplied id refers to no existing user), the
referenced game document, the guild document referenced by the user's
`guildId` (absent when the user has no guild or the guild was deleted), and
the user's session records in creation order (the `by_user` index order used
by `.first()`). Convex runs each mutation as an atomic transaction with a
frozen `Date.now()`, so each operation takes a single `now` and a thrown
error discards all writes. -/

/-- A `game_sessions` document. -/
structure Session where
  gameId : ℕ
  startTime : ℤ
  endTime : Option ℤ
  duration : ℤ
  expAwarded : ℤ
  completed : Bool
  deriving Repr, DecidableEq

/-- The session-relevant fields of a `users` document. `hasGuildId` records
whether the optional `guildId` reference is set. -/
structure UserDoc where
  exp : ℤ
  totalPlaytime : ℤ
  level : ℤ
  lastSeen : ℤ
  hasGuildId : Bool
  deriving Repr, DecidableEq

/-- The session-relevant fields of a `guilds` document. -/
structure GuildDoc where
  totalExp : ℤ
  level : ℤ
  deriving Repr, DecidableEq

/-- The session-relevant fields of a `games` document. -/
structure GameDoc where
  playCount : ℤ
  deriving Repr, DecidableEq

/-- One user's slice of the database. -/
structure DB where
  user : Option UserDoc
  game : Option GameDoc
  guild : Option GuildDoc
  sessions : List Session
  deriving Repr, DecidableEq

/-- `Math.floor((now - startTime) / 60000)`: elapsed whole minutes. -/
def durationMinutes (startTime now : ℤ) : ℤ :=
  ⌊((now - startTime : ℤ) : ℚ) / 60000⌋

/-- The query
`db.query("game_sessions").withIndex("by_user", ...).filter(completed = false).first()`:
the earliest-created session of the user that is not completed. -/
def findActiveSession (sessions : List Session) : Option Session :=
  sessions.find? (fun s => !s.completed)

/-- `ctx.db.patch(activeSession._id, {endTime, duration, expAwarded, completed: true})`
applied to the first non-completed session in the list. -/
def closeFirstOpen (sessions : List Session) (now dur xp : ℤ) : List Session :=
  match sessions with
  | [] => []
  | s :: rest =>
    if s.completed then s :: closeFirstOpen rest now dur xp
    else { s with endTime := some now, duration := dur, expAwarded := xp,
                  completed := true } :: rest

/-- The freshly inserted session of `startSession`:
`{userId, gameId, startTime: now, duration: 0, expAwarded: 0, completed: false}`. -/
def newSession (gameId : ℕ) (now : ℤ) : Session :=
  { gameId := gameId, startTime := now, endTime := none, duration := 0,
    expAwarded := 0, completed := false }

/-- `startSession` from `convex/gameSessions.ts`. If an active session exists
it is force-closed first: its elapsed duration and
`calculateExpFromPlaytime` XP are frozen into the record and awarded to the
user document when it exists (guild, level and lastSeen are untouched).
Then the new open session is inserted. The returned `ℕ` stands for the new
session's id. -/
def startSession (db : DB) (gameId : ℕ) (now : ℤ) : DB × ℕ :=
  let db1 :=
    match findActiveSession db.sessions with
    | some active =>
      let duration := durationMinutes active.startTime now
      let expAwarded := calculateExpFromPlaytime (duration : ℚ)
      let sessions := closeFirstOpen db.sessions now duration expAwarded
      let user :=
        match db.user with
        | some u => some { u with exp := u.exp + expAwarded,
                                  totalPlaytime := u.totalPlaytime + duration }
        | none => none
      { db with sessions := sessions, user := user }
    | none => db
  ({ db1 with sessions := db1.sessions ++ [newSession gameId now] },
   db1.sessions.length)

/-- Errors thrown by `endSession`. -/
inductive SessionError where
  | noActiveSession
  | userNotFound
  deriving Repr, DecidableEq

/-- The return value of `endSession`. -/
structure EndSessionResult where
  duration : ℤ
  expAwarded : ℤ
  totalExp : ℤ
  totalPlaytime : ℤ
  deriving Repr, DecidableEq

/-- `endSession` from `convex/gameSessions.ts`. `completedArg` models the
optional `completed` argument; the bonus applies exactly when it is truthy,
i.e. `some true`. A thrown error (`No active session found`,
`User not found`) aborts the transaction, so the error branches return the
database unchanged. -/
def endSession (db : DB) (completedArg : Option Bool) (now : ℤ) :
    Except SessionError (DB × EndSessionResult) :=
  match findActiveSession db.sessions with
  | none => Except.error SessionError.noActiveSession
  | some session =>
    let duration := durationMinutes session.startTime now
    let base := calculateExpFromPlaytime (duration : ℚ)
    let expAwarded := if completedArg = some true then base + 50 else base
    let sessions := closeFirstOpen db.sessions now duration expAwarded
    match db.user with
    | none => Except.error SessionError.userNotFound
    | some user =>
      let newExp := user.exp + expAwarded
      let newPlaytime := user.totalPlaytime + duration
      let user1 := { user with exp := newExp, totalPlaytime := newPlaytime,
                               lastSeen := now }
      let game1 := db.game.map (fun g => { g with playCount := g.playCount + 1 })
      let guild1 :=
        if user.hasGuildId then
          db.guild.map (fun g => { g with totalExp := g.totalExp + expAwarded })
        else db.guild
      Except.ok
        ({ db with sessions := sessions, user := some user1, game := game1,
                   guild := guild1 },
         { duration := duration, expAwarded := expAwarded, totalExp := newExp,
           totalPlaytime := newPlaytime })

/-- A serial per-user call sequence of the two session mutations. -/
inductive SessionOp where
  | startOp (gameId : ℕ) (now : ℤ)
  | endOp (completedArg : Option Bool) (now : ℤ)
  deriving Repr, DecidableEq

/-- Effect of one call on the database (an error leaves it unchanged). -/
def applyOp (db : DB) : SessionOp → DB
  | SessionOp.startOp g now => (startSession db g now).1
  | SessionOp.endOp c now =>
    match endSession db c now with
    | Except.ok (db1, _) => db1
    | Except.error _ => db

/-- Execute a call sequence serially. -/
def runOps (db : DB) (ops : List SessionOp) : DB := ops.foldl applyOp db

/-- Number of open (not completed) session records of the user. -/
def openCount (db : DB) : ℕ :=
  (db.sessions.filter (fun s => !s.completed)).length

/-! ### Concrete database slices used as test vectors -/

/-- An open session started at `t = 0` on game `0`. -/
def openAt0 : Session := newSession 0 0

/-- User with 0 XP at stored level 1 who references a guild; the guild holds
aggregate XP 500 at its derived level 2 (`levelFromExp 500 = 2`); one open
session started at `t = 0`. -/
def dbGuild500 : DB :=
  { user := some { exp := 0, totalPlaytime := 0, level := 1, lastSeen := 0,
                   hasGuildId := true }
    game := some { playCount := 0 }
    guild := some { totalExp := 500, level := 2 }
    sessions := [openAt0] }

/-- User with 0 XP at stored level 1, no guild, one open session from `t = 0`. -/
def dbSolo : DB :=
  { user := some { exp := 0, totalPlaytime := 0, level := 1, lastSeen := 0,
                   hasGuildId := false }
    game := none
    guild := none
    sessions := [openAt0] }

/-- Database slice where neither the user nor the game document exists. -/
def dbEmpty : DB := { user := none, game := none, guild := none, sessions := [] }

/-! ### Session bookkeeping lemmas -/

lemma durationMinutes_eq_ediv (startTime now : ℤ) :
    durationMinutes startTime now = (now - startTime) / 60000 := by
  unfold durationMinutes
  have h := Rat.floor_intCast_div_natCast (now - startTime) 60000
  rw [show (((60000 : ℕ) : ℚ)) = (60000 : ℚ) by norm_num] at h
  rw [h]
  norm_num

lemma opens_nil_of_find_none {ss : List Session}
    (h : findActiveSession ss = none) :
    (ss.filter (fun s => !s.completed)).length = 0 := by
  rw [List.length_eq_zero, List.filter_eq_nil_iff]
  intro s hs
  have := List.find?_eq_none.mp h s hs
  simpa using this

lemma opens_closeFirstOpen {ss : List Session} {a : Session}
    (h : findActiveSession ss = some a) (now dur xp : ℤ) :
    ((closeFirstOpen ss now dur xp).filter (fun s => !s.completed)).length + 1 =
      (ss.filter (fun s => !s.completed)).length := by
  induction ss with
  | nil => simp [findActiveSession] at h
  | cons s rest ih =>
    by_cases hc : s.completed
    · have hfind : findActiveSession rest = some a := by
        unfold findActiveSession at h ⊢
        rw [List.find?_cons] at h
        simpa [hc] using h
      have := ih hfind
      simp only [closeFirstOpen, hc, if_true]
      simpa [hc] using this
    · simp only [closeFirstOpen, hc, if_false]
      simp [hc]

lemma opens_append (l1 l2 : List Session) :
    ((l1 ++ l2).filter (fun s => !s.completed)).length =
      (l1.filter (fun s => !s.completed)).length +
      (l2.filter (fun s => !s.completed)).length := by
  simp [List.filter_append]

lemma openCount_startSession (db : DB) (g : ℕ) (now : ℤ)
    (h : openCount db ≤ 1) :
    openCount (startSession db g now).1 = 1 := by
  unfold openCount at h ⊢
  cases hf : findActiveSession db.sessions with
  | none =>
    have h0 := opens_nil_of_find_none hf
    simp only [startSession, hf]
    rw [opens_append]
    simp [newSession, h0]
  | some a =>
    have h1 := opens_closeFirstOpen hf now
      (durationMinutes a.startTime now)
      (calculateExpFromPlaytime ((durationMinutes a.startTime now : ℤ) : ℚ))
    simp only [startSession, hf]
    rw [opens_append]
    simp only [newSession]
    have : ((closeFirstOpen db.sessions now (durationMinutes a.startTime now)
        (calculateExpFromPlaytime ((durationMinutes a.startTime now : ℤ) : ℚ))).filter
        (fun s => !s.completed)).length = 0 := by omega
    rw [this]
    simp

lemma openCount_applyOp (db : DB) (op : SessionOp)
    (h : openCount db ≤ 1) :
    openCount (applyOp db op) ≤ 1 := by
  cases op with
  | startOp g now =>
    have := openCount_startSession db g now h
    simp only [applyOp]
    omega
  | endOp c now =>
    simp only [applyOp]
    cases hf : findActiveSession db.sessions with
    | none => simp [endSession, hf, h]
    | some a =>
      cases hu : db.user with
      | none => simp [endSession, hf, hu, h]
      | some u =>
        simp only [endSession, hf, hu]
        unfold openCount at h ⊢
        split
        · dsimp only
          have h1 := opens_closeFirstOpen hf now
            (durationMinutes a.startTime now)
            (calculateExpFromPlaytime ((durationMinutes a.startTime now : ℤ) : ℚ) + 50)
          omega
        · dsimp only
          have h1 := opens_closeFirstOpen hf now
            (durationMinutes a.startTime now)
            (calculateExpFromPlaytime ((durationMinutes a.startTime now : ℤ) : ℚ))
          omega

lemma closeFirstOpen_length (ss : List Session) (now dur xp : ℤ) :
    (closeFirstOpen ss now dur xp).length = ss.length := by
  induction ss with
  | nil => rfl
  | cons s rest ih =>
    by_cases hc : s.completed
    · simp [closeFirstOpen, hc, ih]
    · simp [closeFirstOpen, hc]

/-- Full description of a successful `endSession` call: the open session is
frozen, the user's counters and `lastSeen` are updated (the stored `level`
is not), the game's play count is bumped, and when the user references a
guild its aggregate XP receives the award (its stored `level` is not
recomputed). -/
lemma endSession_ok (db : DB) (c : Option Bool) (now : ℤ) {s : Session} {u : UserDoc}
    (hs : findActiveSession db.sessions = some s) (hu : db.user = some u) :
    endSession db c now = Except.ok
      ({ user := some
          { exp := u.exp +
              (if c = some true then
                calculateExpFromPlaytime ((durationMinutes s.startTime now : ℤ) : ℚ) + 50
              else calculateExpFromPlaytime ((durationMinutes s.startTime now : ℤ) : ℚ))
            totalPlaytime := u.totalPlaytime + durationMinutes s.startTime now
            level := u.level
            lastSeen := now
            hasGuildId := u.hasGuildId }
         game := db.game.map (fun g => { playCount := g.playCount + 1 })
         guild :=
          if u.hasGuildId then
            db.guild.map (fun g =>
              { totalExp := g.totalExp +
                  (if c = some true then
                    calculateExpFromPlaytime ((durationMinutes s.startTime now : ℤ) : ℚ) + 50
                  else calculateExpFromPlaytime ((durationMinutes s.startTime now : ℤ) : ℚ))
                level := g.level })
          else db.guild
         sessions := closeFirstOpen db.sessions now (durationMinutes s.startTime now)
            (if c = some true then
              calculateExpFromPlaytime ((durationMinutes s.startTime now : ℤ) : ℚ) + 50
            else calculateExpFromPlaytime ((durationMinutes s.startTime now : ℤ) : ℚ)) },
       { duration := durationMinutes s.startTime now
         expAwarded :=
          if c = some true then
            calculateExpFromPlaytime ((durationMinutes s.startTime now : ℤ) : ℚ) + 50
          else calculateExpFromPlaytime ((durationMinutes s.startTime now : ℤ) : ℚ)
         totalExp := u.exp +
          (if c = some true then
            calculateExpFromPlaytime ((durationMinutes s.startTime now : ℤ) : ℚ) + 50
          else calculateExpFromPlaytime ((durationMinutes s.startTime now : ℤ) : ℚ))
         totalPlaytime := u.totalPlaytime + durationMinutes s.startTime now }) := by
  simp only [endSession, hs, hu]

/-- Full description of `startSession` when an orphaned open session exists:
it is force-closed with `calculateExpFromPlaytime` XP (no bonus), the user's
`exp`/`totalPlaytime` take the award (guild, level, lastSeen untouched), and
the fresh open session is appended. -/
lemma startSession_forceClose (db : DB) (g : ℕ) (now : ℤ) {s : Session} {u : UserDoc}
    (hs : findActiveSession db.sessions = some s) (hu : db.user = some u) :
    startSession db g now =
      ({ user := some
          { exp := u.exp + calculateExpFromPlaytime ((durationMinutes s.startTime now : ℤ) : ℚ)
            totalPlaytime := u.totalPlaytime + durationMinutes s.startTime now
            level := u.level
            lastSeen := u.lastSeen
            hasGuildId := u.hasGuildId }
         game := db.game
         guild := db.guild
         sessions := closeFirstOpen db.sessions now (durationMinutes s.startTime now)
            (calculateExpFromPlaytime ((durationMinutes s.startTime now : ℤ) : ℚ)) ++
            [newSession g now] },
       db.sessions.length) := by
  simp [startSession, hs, hu, closeFirstOpen_length]

/-- Full description of `startSession` when no open session exists. -/
lemma startSession_fresh (db : DB) (g : ℕ) (now : ℤ)
    (hs : findActiveSession db.sessions = none) :
    startSession db g now =
      ({ user := db.user
         game := db.game
         guild := db.guild
         sessions := db.sessions ++ [newSession g now] },
       db.sessions.length) := by
  simp [startSession, hs]

lemma openCount_runOps (db : DB) (ops : List SessionOp)
    (h : openCount db ≤ 1) :
    openCount (runOps db ops) ≤ 1 := by
  induction ops generalizing db with
  | nil => simpa [runOps] using h
  | cons op rest ih =>
    have h1 := openCount_applyOp db op h
    have := ih (applyOp db op) h1
    simpa [runOps, List.foldl_cons] using this

/-! ### Numeric evaluation lemmas for the level curve -/

lemma getExpForLevel_one_eval : getExpForLevel 1 = 0 := by
  norm_num [getExpForLevel]

lemma getExpForLevel_two_eval : getExpForLevel 2 = 300 := by
  norm_num [getExpForLevel]

lemma getExpForLevel_three_eval : getExpForLevel 3 = 675 := by
  norm_num [getExpForLevel]

lemma getExpForLevel_four_eval : getExpForLevel 4 = 1350 := by
  norm_num [getExpForLevel]

lemma totalExpForTwo : getTotalExpForLevel 2 = 300 := by
  simp [getTotalExpForLevel, getExpForLevel_one_eval, getExpForLevel_two_eval]

lemma totalExpForThree : getTotalExpForLevel 3 = 975 := by
  simp [getTotalExpForLevel, getExpForLevel_one_eval, getExpForLevel_two_eval,
    getExpForLevel_three_eval]

lemma totalExpForFour : getTotalExpForLevel 4 = 2325 := by
  simp [getTotalExpForLevel, getExpForLevel_one_eval, getExpForLevel_two_eval,
    getExpForLevel_three_eval, getExpForLevel_four_eval]

lemma levelOf600 : (calculateLevelFromExp 600).level = 2 := by
  apply level_eq_of_bounds
  · rw [totalExpForTwo]; norm_num
  · rw [show (2 : ℕ) + 1 = 3 from rfl, totalExpForThree]; norm_num

lemma levelOf980 : (calculateLevelFromExp 980).level = 3 := by
  apply level_eq_of_bounds
  · rw [totalExpForThree]; norm_num
  · rw [show (3 : ℕ) + 1 = 4 from rfl, totalExpForFour]; norm_num

lemma calculateLevelFromExp_currentLevelExp (t : ℚ) :
    (calculateLevelFromExp t).currentLevelExp = t - ((levelLoop t 1 0).2 : ℚ) := rfl

lemma calculateLevelFromExp_nextLevelExp (t : ℚ) :
    (calculateLevelFromExp t).nextLevelExp = getExpForLevel ((levelLoop t 1 0).1 + 1) := rfl

lemma levelLoop_neg {t : ℚ} (h : t < 0) : levelLoop t 1 0 = (1, 0) := by
  rw [levelLoop, dif_neg]
  push_cast
  linarith

lemma calculateLevelFromExp_progress (t : ℚ) :
    (calculateLevelFromExp t).progress =
      if ((getExpForLevel ((levelLoop t 1 0).1 + 1) : ℤ) : ℚ) > 0 then
        (t - ((levelLoop t 1 0).2 : ℚ)) /
          ((getExpForLevel ((levelLoop t 1 0).1 + 1) : ℤ) : ℚ) * 100
      else 0 := rfl

/-! ## Claims -/

/-- C5 counterexample: the claim asserts `expFromMinutes(2.9) = 20`
("fractional minutes are truncated"), but `calculateExpFromPlaytime` is
`floor(minutes * 10)`, which yields `29` on input `2.9`. -/
theorem expFromMinutes_fractional_cx :
    calculateExpFromPlaytime (2.9 : ℚ) = 29 ∧ calculateExpFromPlaytime (2.9 : ℚ) ≠ 20 := by
  constructor <;> norm_num [calculateExpFromPlaytime]

/-- C5 (amended): `expFromMinutes(m) = 10 * m` for every integer `m ≥ 0`, but
fractional minutes are not truncated before scaling: `expFromMinutes(2.9)`
is `floor(29) = 29`, not `20`. -/
theorem expFromMinutes_linear (m : ℕ) :
    calculateExpFromPlaytime ((m : ℕ) : ℚ) = 10 * (m : ℤ) ∧
    calculateExpFromPlaytime (2.9 : ℚ) = 29 := by
  constructor
  · have h := calculateExpFromPlaytime_intCast (m : ℤ)
    rw [show (((m : ℤ) : ℚ)) = ((m : ℕ) : ℚ) by push_cast; ring] at h
    exact h
  · norm_num [calculateExpFromPlaytime]

/-- C6: for every level `L ≥ 1`, deriving the level back from the total XP
required for `L` returns exactly `L`; and `levelFromExp 0` is level 1 with
`currentLevelExp = 0`. -/
theorem levelFromExp_roundTrip (L : ℕ) (hL : 1 ≤ L) :
    (calculateLevelFromExp ((getTotalExpForLevel L : ℤ) : ℚ)).level = L ∧
    (calculateLevelFromExp 0).level = 1 ∧
    (calculateLevelFromExp 0).currentLevelExp = 0 := by
  have hzeroLevel : (calculateLevelFromExp 0).level = 1 := by
    apply level_eq_of_bounds
    · rw [getTotalExpForLevel_one]; norm_num
    · rw [show (1 : ℕ) + 1 = 2 from rfl, totalExpForTwo]; norm_num
  refine ⟨?_, hzeroLevel, ?_⟩
  · apply level_eq_of_bounds
    · exact le_refl _
    · exact_mod_cast getTotalExpForLevel_succ_lt hL
  · obtain ⟨-, -, -, h4⟩ := calculateLevelFromExp_spec 0 le_rfl
    rw [calculateLevelFromExp_currentLevelExp, h4, hzeroLevel, getTotalExpForLevel_one]
    norm_num

/-- C6 witness at `L = 3`. -/
theorem levelFromExp_roundTrip_witness :
    (calculateLevelFromExp ((getTotalExpForLevel 3 : ℤ) : ℚ)).level = 3 ∧
    (calculateLevelFromExp 0).level = 1 ∧
    (calculateLevelFromExp 0).currentLevelExp = 0 :=
  levelFromExp_roundTrip 3 (by norm_num)

/-- C7: the derived level is monotonically non-decreasing in the XP total. -/
theorem levelFromExp_monotone (a b : ℚ) (h0 : 0 ≤ a) (hab : a ≤ b) :
    (calculateLevelFromExp a).level ≤ (calculateLevelFromExp b).level := by
  obtain ⟨-, ha2, -, -⟩ := calculateLevelFromExp_spec a h0
  obtain ⟨-, -, hb3, -⟩ := calculateLevelFromExp_spec b (le_trans h0 hab)
  by_contra hlt
  push_neg at hlt
  have hm := getTotalExpForLevel_mono
    (show (calculateLevelFromExp b).level + 1 ≤ (calculateLevelFromExp a).level by omega)
  have hm' : ((getTotalExpForLevel ((calculateLevelFromExp b).level + 1) : ℤ) : ℚ) ≤
      ((getTotalExpForLevel (calculateLevelFromExp a).level : ℤ) : ℚ) := by
    exact_mod_cast hm
  linarith

/-- C7 witness at `a = 0`, `b = 1`. -/
theorem levelFromExp_monotone_witness :
    (calculateLevelFromExp 0).level ≤ (calculateLevelFromExp 1).level :=
  levelFromExp_monotone 0 1 (by norm_num) (by norm_num)

/-- C10: a negative XP total is neither rejected nor clamped:
`calculateLevelFromExp t` returns level 1, `currentLevelExp = t` (negative),
`nextLevelExp = getExpForLevel 2 = 300`, and a negative progress
percentage. -/
theorem levelFromExp_negative (t : ℚ) (h : t < 0) :
    (calculateLevelFromExp t).level = 1 ∧
    (calculateLevelFromExp t).currentLevelExp = t ∧
    (calculateLevelFromExp t).nextLevelExp = 300 ∧
    (calculateLevelFromExp t).progress < 0 := by
  have hloop := levelLoop_neg h
  refine ⟨?_, ?_, ?_, ?_⟩
  · rw [calculateLevelFromExp_level, hloop]
  · rw [calculateLevelFromExp_currentLevelExp, hloop]
    norm_num
  · rw [calculateLevelFromExp_nextLevelExp, hloop]
    exact getExpForLevel_two_eval
  · rw [calculateLevelFromExp_progress]
    simp only [hloop]
    rw [show (1 : ℕ) + 1 = 2 from rfl, getExpForLevel_two_eval]
    rw [if_pos (by norm_num)]
    have h1 : t / (((300 : ℤ) : ℚ)) < 0 := by
      apply div_neg_of_neg_of_pos h
      norm_num
    push_cast at h1 ⊢
    nlinarith

/-- C10 witness at `t = -5`. -/
theorem levelFromExp_negative_witness :
    (calculateLevelFromExp (-5)).level = 1 ∧
    (calculateLevelFromExp (-5)).currentLevelExp = -5 ∧
    (calculateLevelFromExp (-5)).nextLevelExp = 300 ∧
    (calculateLevelFromExp (-5)).progress < 0 :=
  levelFromExp_negative (-5) (by norm_num)

/-- C1 counterexample: a successful `endSession` awarding 480 XP takes the
guild's aggregate XP from 500 to 980, but leaves the stored guild level at
its prior value 2, although `calculateLevelFromExp 980` gives level 3 —
`endSession` never recomputes the stored guild level. -/
theorem endSession_guild_level_not_recomputed_cx :
    endSession dbGuild500 none 2880000 = Except.ok
      ({ user := some { exp := 480, totalPlaytime := 48, level := 1,
                        lastSeen := 2880000, hasGuildId := true }
         game := some { playCount := 1 }
         guild := some { totalExp := 980, level := 2 }
         sessions := [{ gameId := 0, startTime := 0, endTime := some 2880000,
                        duration := 48, expAwarded := 480, completed := true }] },
       { duration := 48, expAwarded := 480, totalExp := 480, totalPlaytime := 48 }) ∧
    (calculateLevelFromExp 980).level = 3 ∧
    ((2 : ℤ) ≠ ((calculateLevelFromExp 980).level : ℤ)) := by
  have hd : durationMinutes openAt0.startTime 2880000 = 48 := by
    rw [durationMinutes_eq_ediv]; decide
  have hx : calculateExpFromPlaytime ((48 : ℤ) : ℚ) = 480 := by
    rw [calculateExpFromPlaytime_intCast]; decide
  refine ⟨?_, levelOf980, by rw [levelOf980]; decide⟩
  rw [@endSession_ok dbGuild500 none 2880000 openAt0 ⟨0, 0, 1, 0, true⟩ rfl rfl]
  simp only [hd, hx]
  rfl

/-- C1 (amended): a successful `endSession` adds exactly the awarded XP to
the guild's stored aggregate XP but leaves the guild's stored `level` field
unchanged (the level is derived from the aggregate only when guilds are
read). -/
theorem endSession_guild_rollup_keeps_level (db : DB) (c : Option Bool) (now : ℤ)
    (s : Session) (u : UserDoc) (gd : GuildDoc)
    (hs : findActiveSession db.sessions = some s) (hu : db.user = some u)
    (hg : u.hasGuildId = true) (hgd : db.guild = some gd) :
    ∃ db1 r, endSession db c now = Except.ok (db1, r) ∧
      db1.guild = some { totalExp := gd.totalExp + r.expAwarded, level := gd.level } := by
  refine ⟨_, _, @endSession_ok db c now s u hs hu, ?_⟩
  simp [hg, hgd]

/-- C1 witness: the spec's concrete scenario, user with 0 XP in a guild at
aggregate 500 earning 120 XP: the aggregate becomes exactly 500 + 120 = 620
(with the stored level staying 2). -/
theorem endSession_guild_rollup_witness :
    (∃ db1 r, endSession dbGuild500 none 720000 = Except.ok (db1, r) ∧
      db1.guild = some { totalExp := 500 + r.expAwarded, level := 2 }) ∧
    calculateExpFromPlaytime ((durationMinutes openAt0.startTime 720000 : ℤ) : ℚ) = 120 ∧
    ((500 : ℤ) + 120 = 620) := by
  refine ⟨@endSession_guild_rollup_keeps_level dbGuild500 none 720000 openAt0
    ⟨0, 0, 1, 0, true⟩ ⟨500, 2⟩ rfl rfl rfl rfl, ?_, by decide⟩
  have hd : durationMinutes openAt0.startTime 720000 = 12 := by
    rw [durationMinutes_eq_ediv]; decide
  rw [hd, calculateExpFromPlaytime_intCast]
  decide

/-- C2 counterexample: a successful `endSession` awarding 600 XP leaves the
user's stored `level` at 1 although `calculateLevelFromExp 600` gives
level 2 — `endSession` does not update the stored user level. -/
theorem endSession_user_level_stale_cx :
    endSession dbSolo none 3600000 = Except.ok
      ({ user := some { exp := 600, totalPlaytime := 60, level := 1,
                        lastSeen := 3600000, hasGuildId := false }
         game := none
         guild := none
         sessions := [{ gameId := 0, startTime := 0, endTime := some 3600000,
                        duration := 60, expAwarded := 600, completed := true }] },
       { duration := 60, expAwarded := 600, totalExp := 600, totalPlaytime := 60 }) ∧
    (calculateLevelFromExp 600).level = 2 ∧
    ((1 : ℤ) ≠ ((calculateLevelFromExp 600).level : ℤ)) := by
  have hd : durationMinutes openAt0.startTime 3600000 = 60 := by
    rw [durationMinutes_eq_ediv]; decide
  have hx : calculateExpFromPlaytime ((60 : ℤ) : ℚ) = 600 := by
    rw [calculateExpFromPlaytime_intCast]; decide
  refine ⟨?_, levelOf600, by rw [levelOf600]; decide⟩
  rw [@endSession_ok dbSolo none 3600000 openAt0 ⟨0, 0, 1, 0, false⟩ rfl rfl]
  simp only [hd, hx]
  rfl

/-- C2 (amended): a successful `endSession` adds the awarded XP to the
user's cumulative XP and the elapsed minutes to the cumulative playtime and
refreshes `lastSeen`, but leaves the stored `level` field unchanged. -/
theorem endSession_user_level_unchanged (db : DB) (c : Option Bool) (now : ℤ)
    (s : Session) (u : UserDoc)
    (hs : findActiveSession db.sessions = some s) (hu : db.user = some u) :
    ∃ db1 r, endSession db c now = Except.ok (db1, r) ∧
      db1.user = some { exp := u.exp + r.expAwarded
                        totalPlaytime := u.totalPlaytime + r.duration
                        level := u.level, lastSeen := now
                        hasGuildId := u.hasGuildId } :=
  ⟨_, _, @endSession_ok db c now s u hs hu, rfl⟩

/-- C2 witness on a 60-minute session of a guild-less level-1 user. -/
theorem endSession_user_level_unchanged_witness :
    ∃ db1 r, endSession dbSolo none 3600000 = Except.ok (db1, r) ∧
      db1.user = some { exp := 0 + r.expAwarded
                        totalPlaytime := 0 + r.duration
                        level := 1, lastSeen := 3600000
                        hasGuildId := false } :=
  @endSession_user_level_unchanged dbSolo none 3600000 openAt0 ⟨0, 0, 1, 0, false⟩ rfl rfl

/-- C3 counterexample: `startSession` while a session is open force-closes
it and credits the user (0 → 120 XP), but the guild aggregate stays at 500
instead of becoming 620 — force-close does not award the XP to the guild. -/
theorem startSession_forceClose_no_guild_cx :
    (startSession dbGuild500 1 720000).1.guild = some { totalExp := 500, level := 2 } ∧
    (startSession dbGuild500 1 720000).1.user =
      some { exp := 120, totalPlaytime := 12, level := 1, lastSeen := 0,
             hasGuildId := true } ∧
    ((500 : ℤ) ≠ 500 + 120) := by
  have hd : durationMinutes openAt0.startTime 720000 = 12 := by
    rw [durationMinutes_eq_ediv]; decide
  have hx : calculateExpFromPlaytime ((12 : ℤ) : ℚ) = 120 := by
    rw [calculateExpFromPlaytime_intCast]; decide
  rw [@startSession_forceClose dbGuild500 1 720000 openAt0 ⟨0, 0, 1, 0, true⟩ rfl rfl]
  simp only [hd, hx]
  exact ⟨rfl, rfl, by decide⟩

/-- C3 (amended): force-close awards `calculateExpFromPlaytime` of the
elapsed minutes, with no completion bonus, to the user's cumulative XP and
playtime only; the guild document is untouched, and the orphaned session is
frozen with exactly that XP before the new session is inserted. -/
theorem startSession_forceClose_user_only (db : DB) (g : ℕ) (now : ℤ)
    (s : Session) (u : UserDoc)
    (hs : findActiveSession db.sessions = some s) (hu : db.user = some u) :
    (startSession db g now).1.user =
      some { exp := u.exp + calculateExpFromPlaytime ((durationMinutes s.startTime now : ℤ) : ℚ)
             totalPlaytime := u.totalPlaytime + durationMinutes s.startTime now
             level := u.level, lastSeen := u.lastSeen
             hasGuildId := u.hasGuildId } ∧
    (startSession db g now).1.guild = db.guild ∧
    (startSession db g now).1.sessions =
      closeFirstOpen db.sessions now (durationMinutes s.startTime now)
        (calculateExpFromPlaytime ((durationMinutes s.startTime now : ℤ) : ℚ)) ++
        [newSession g now] := by
  rw [@startSession_forceClose db g now s u hs hu]
  exact ⟨rfl, rfl, rfl⟩

/-- C3 witness on the guild scenario: the user is credited, the guild
document is returned unchanged. -/
theorem startSession_forceClose_user_only_witness :
    (startSession dbGuild500 1 720000).1.user =
      some { exp := 0 + calculateExpFromPlaytime ((durationMinutes openAt0.startTime 720000 : ℤ) : ℚ)
             totalPlaytime := 0 + durationMinutes openAt0.startTime 720000
             level := 1, lastSeen := 0, hasGuildId := true } ∧
    (startSession dbGuild500 1 720000).1.guild = dbGuild500.guild ∧
    (startSession dbGuild500 1 720000).1.sessions =
      closeFirstOpen dbGuild500.sessions 720000 (durationMinutes openAt0.startTime 720000)
        (calculateExpFromPlaytime ((durationMinutes openAt0.startTime 720000 : ℤ) : ℚ)) ++
        [newSession 1 720000] :=
  @startSession_forceClose_user_only dbGuild500 1 720000 openAt0 ⟨0, 0, 1, 0, true⟩ rfl rfl

/-- C4: starting from a state with at most one open session, any serial
sequence of `startSession` and `endSession` calls keeps at most one session
open, and immediately after each `startSession` returns exactly one session
is open. -/
theorem atMostOneOpenSession (init : DB) (h : openCount init ≤ 1) (ops : List SessionOp) :
    openCount (runOps init ops) ≤ 1 ∧
    ∀ g now, openCount (runOps init (ops ++ [SessionOp.startOp g now])) = 1 := by
  refine ⟨openCount_runOps init ops h, ?_⟩
  intro g now
  have h1 := openCount_runOps init ops h
  have h2 := openCount_startSession (runOps init ops) g now h1
  show openCount ((ops ++ [SessionOp.startOp g now]).foldl applyOp init) = 1
  rw [List.foldl_append]
  simpa [applyOp, runOps] using h2

/-- C4 witness: a concrete three-call trace from the empty state. -/
theorem atMostOneOpenSession_witness :
    openCount (runOps dbEmpty
      [SessionOp.startOp 0 0, SessionOp.startOp 1 60000,
       SessionOp.endOp (some true) 120000]) ≤ 1 ∧
    ∀ g now, openCount (runOps dbEmpty
      ([SessionOp.startOp 0 0, SessionOp.startOp 1 60000,
        SessionOp.endOp (some true) 120000] ++ [SessionOp.startOp g now])) = 1 :=
  atMostOneOpenSession dbEmpty (by decide)
    [SessionOp.startOp 0 0, SessionOp.startOp 1 60000,
     SessionOp.endOp (some true) 120000]

/-- C8: ending an open session at elapsed whole-minute duration `d` awards
exactly `calculateExpFromPlaytime d + 50` when `completed = true` and
exactly `calculateExpFromPlaytime d` otherwise, and the award lands on the
user's cumulative XP. -/
theorem endSession_completion_bonus (db : DB) (now : ℤ) (s : Session) (u : UserDoc)
    (hs : findActiveSession db.sessions = some s) (hu : db.user = some u) (c : Option Bool) :
    ∃ db1 r, endSession db c now = Except.ok (db1, r) ∧
      r.duration = durationMinutes s.startTime now ∧
      r.expAwarded = (if c = some true
        then calculateExpFromPlaytime ((durationMinutes s.startTime now : ℤ) : ℚ) + 50
        else calculateExpFromPlaytime ((durationMinutes s.startTime now : ℤ) : ℚ)) ∧
      r.totalExp = u.exp + r.expAwarded :=
  ⟨_, _, @endSession_ok db c now s u hs hu, rfl, rfl, rfl⟩

/-- C8 witness: the spec's end-to-end example — session started at `t = 0`,
ended at `t = 125000` with `completed = true`: duration 2, award 20 + 50 = 70. -/
theorem endSession_completion_bonus_witness :
    durationMinutes openAt0.startTime 125000 = 2 ∧
    calculateExpFromPlaytime ((2 : ℤ) : ℚ) + 50 = 70 ∧
    (∃ db1 r, endSession dbSolo (some true) 125000 = Except.ok (db1, r) ∧
      r.duration = durationMinutes openAt0.startTime 125000 ∧
      r.expAwarded = (if (some true : Option Bool) = some true
        then calculateExpFromPlaytime ((durationMinutes openAt0.startTime 125000 : ℤ) : ℚ) + 50
        else calculateExpFromPlaytime ((durationMinutes openAt0.startTime 125000 : ℤ) : ℚ)) ∧
      r.totalExp = 0 + r.expAwarded) := by
  refine ⟨?_, ?_, @endSession_completion_bonus dbSolo 125000 openAt0
    ⟨0, 0, 1, 0, false⟩ rfl rfl (some true)⟩
  · rw [durationMinutes_eq_ediv]; decide
  · rw [calculateExpFromPlaytime_intCast]; decide

/-- C9 counterexample: in a state where neither the user nor the game
document exists, `startSession` neither raises `UserNotFound` nor
`GameNotFound`: it returns successfully and a new open session record is
created. -/
theorem startSession_missing_user_cx :
    dbEmpty.user = none ∧ dbEmpty.game = none ∧
    startSession dbEmpty 0 1000 =
      ({ user := none, game := none, guild := none,
         sessions := [newSession 0 1000] }, 0) ∧
    (startSession dbEmpty 0 1000).1.sessions.length = 1 := by
  exact ⟨rfl, rfl, rfl, rfl⟩

/-- C9 (amended): `startSession` performs no existence check on the supplied
user or game: for every database state it inserts the fresh open session
(preserving the number of prior session records). -/
theorem startSession_no_existence_check (db : DB) (g : ℕ) (now : ℤ) :
    ∃ l, (startSession db g now).1.sessions = l ++ [newSession g now] ∧
      l.length = db.sessions.length := by
  cases hf : findActiveSession db.sessions with
  | none =>
    refine ⟨db.sessions, ?_, rfl⟩
    rw [startSession_fresh db g now hf]
  | some a =>
    cases hu : db.user with
    | none =>
      refine ⟨closeFirstOpen db.sessions now (durationMinutes a.startTime now)
        (calculateExpFromPlaytime ((durationMinutes a.startTime now : ℤ) : ℚ)), ?_, ?_⟩
      · simp [startSession, hf, hu]
      · exact closeFirstOpen_length _ _ _ _
    | some u =>
      refine ⟨closeFirstOpen db.sessions now (durationMinutes a.startTime now)
        (calculateExpFromPlaytime ((durationMinutes a.startTime now : ℤ) : ℚ)), ?_, ?_⟩
      · rw [@startSession_forceClose db g now a u hf hu]
      · exact closeFirstOpen_length _ _ _ _

end NRetrocade
